import Mathlib

/-
  Shallow embedding of the TechMartLK storefront logic.

  Sources:
  - src/types.ts                  : the data model (Product, Review, Order, ...)
  - src/App.tsx, ShopProvider     : cart state operations and cartTotal
  - src/App.tsx, CheckoutPage     : delivery fee / grand total computation
  - src/unnamed/part_000          : FirebaseService (addReview, deleteReview,
                                    updateOrderStatus, cancelOrder)

  Numbers are modelled by the rationals (JS numbers, excluding NaN and
  rounding); epoch-millisecond timestamps by Int; quantities by Int.
  A document that may be absent is an Option; a Firestore write is modelled
  functionally, by returning the post-write document state.  A thrown JS
  error is an Except.error.
-/

namespace TechMart

/-- JS boolean-or on an optional number, as in the source expressions
  item.offerPrice || item.price  and  item.deliveryFee || 0 :
  null/undefined and 0 are falsy, so the default is used for them. -/
def jsOr (o : Option ℚ) (d : ℚ) : ℚ :=
  match o with
  | some x => if x = 0 then d else x
  | none => d

/-- src/types.ts, interface Review. -/
structure Review where
  id : String
  userId : String
  userName : String
  rating : ℚ
  comment : String
  date : Int
deriving DecidableEq, Repr

/-- src/types.ts, interface Product.  The optional deliveryFee field is not in
  the TypeScript interface but is read off the product snapshot untyped by
  CheckoutPage (item.deliveryFee), so the document carries it. -/
structure Product where
  id : String
  name : String
  description : String
  shortDescription : Option String
  price : ℚ
  offerPrice : Option ℚ
  deliveryFee : Option ℚ
  category : String
  imageUrl : String
  images : List String
  videoUrl : Option String
  stock : Int
  rating : ℚ
  reviews : List Review
deriving DecidableEq, Repr

/-- src/types.ts, interface CartItem extends Product \x7b quantity \x7d. -/
structure CartItem extends Product where
  quantity : Int
deriving DecidableEq, Repr

/-- The spread \x7b ...product, quantity \x7d used by addToCart. -/
def Product.toCartItem (p : Product) (quantity : Int) : CartItem :=
  { toProduct := p, quantity := quantity }

/-- src/types.ts, interface Address. -/
structure Address where
  id : String
  label : String
  name : String
  address : String
  city : String
  district : String
  phone : String
deriving DecidableEq, Repr

/-- src/types.ts, interface User.  role is the string union admin | customer. -/
structure User where
  id : String
  email : String
  name : String
  phone : String
  role : String
  addresses : List Address
  wishlist : List String
deriving DecidableEq, Repr

/-- src/types.ts, interface OrderStatusUpdate. -/
structure OrderStatusUpdate where
  status : String
  comment : Option String
  timestamp : Int
deriving DecidableEq, Repr

/-- src/types.ts, interface Order (plus the deliveryFee field written by
  FirebaseService.createOrder).  status and paymentMethod are string unions. -/
structure Order where
  id : String
  userId : String
  items : List CartItem
  totalAmount : ℚ
  deliveryFee : ℚ
  status : String
  statusHistory : List OrderStatusUpdate
  adminComment : Option String
  createdAt : Int
  shippingDetails : Address
  paymentMethod : String
  customerEmail : Option String
  customerPhone : Option String
deriving DecidableEq, Repr

/- ------------------------------------------------------------------
   Cart operations: src/App.tsx, ShopProvider (lines 102-177)
   ------------------------------------------------------------------ -/

/-- The setCart closure inside addToCart (src/App.tsx lines 135-141):
  find an existing line by product id; if found, map over the cart bumping
  the quantity of the matching line, else append a fresh line with quantity 1. -/
def addToCartUpdate (product : Product) (prev : List CartItem) : List CartItem :=
  if (prev.find? (fun item => item.id == product.id)).isSome then
    prev.map (fun item =>
      if item.id = product.id then { item with quantity := item.quantity + 1 } else item)
  else prev ++ [product.toCartItem 1]

/-- src/App.tsx, ShopProvider.addToCart (lines 128-143): the stored current
  user (db.getCurrentUser(), possibly null) is checked first; an admin is
  rejected and the cart left untouched. -/
def addToCart (user : Option User) (product : Product) (cart : List CartItem) : List CartItem :=
  match user with
  | some u => if u.role = "admin" then cart else addToCartUpdate product cart
  | none => addToCartUpdate product cart

/-- src/App.tsx, ShopProvider.removeFromCart (lines 145-147). -/
def removeFromCart (pid : String) (cart : List CartItem) : List CartItem :=
  cart.filter (fun item => item.id != pid)

/-- src/App.tsx, ShopProvider.updateQuantity (lines 149-152): a quantity
  below 1 removes the line, otherwise the quantity of the matching line is set. -/
def updateQuantity (pid : String) (qty : Int) (cart : List CartItem) : List CartItem :=
  if qty < 1 then removeFromCart pid cart
  else cart.map (fun item => if item.id = pid then { item with quantity := qty } else item)

/-- src/App.tsx, ShopProvider.clearCart (line 154). -/
def clearCart : List CartItem := []

/-- src/App.tsx, ShopProvider.cartTotal (lines 161-164):
  cart.reduce((sum, item) => sum + (item.offerPrice || item.price) * item.quantity, 0). -/
def cartTotal (cart : List CartItem) : ℚ :=
  cart.foldl (fun sum item => sum + jsOr item.offerPrice item.price * (item.quantity : ℚ)) 0

/-- One user-driven cart action of the ShopProvider context. -/
inductive CartOp where
  | add (user : Option User) (product : Product)
  | remove (pid : String)
  | update (pid : String) (qty : Int)
  | clear
deriving Repr

/-- Apply one cart action to the current cart state. -/
def applyOp (cart : List CartItem) : CartOp → List CartItem
  | .add user product => addToCart user product cart
  | .remove pid => removeFromCart pid cart
  | .update pid qty => updateQuantity pid qty cart
  | .clear => clearCart

/-- Run a sequence of cart actions starting from the empty cart
  (the initial useState value, src/App.tsx line 103). -/
def runOps (ops : List CartOp) : List CartItem :=
  ops.foldl applyOp []

/-- The formula of the spec for the cart total, written from its words:
  the sum over remaining lines of (offerPrice ?? price) * quantity, where ??
  means the nullish-coalescing reading of "offerPrice if present, otherwise
  price".  To be compared with cartTotal, which embeds the source. -/
def specCartTotal (cart : List CartItem) : ℚ :=
  (cart.map (fun item => item.offerPrice.getD item.price * (item.quantity : ℚ))).sum

/- ------------------------------------------------------------------
   Checkout totals: src/App.tsx, CheckoutPage (lines 2322-2324)
   ------------------------------------------------------------------ -/

/-- src/App.tsx line 2323:
  cart.reduce((sum, item) => sum + ((item.deliveryFee || 0) * item.quantity), 0). -/
def totalDeliveryFee (cart : List CartItem) : ℚ :=
  cart.foldl (fun sum item => sum + jsOr item.deliveryFee 0 * (item.quantity : ℚ)) 0

/-- src/App.tsx line 2324: grandTotal = cartTotal + totalDeliveryFee. -/
def grandTotal (cart : List CartItem) : ℚ :=
  cartTotal cart + totalDeliveryFee cart

/- ------------------------------------------------------------------
   FirebaseService: src/unnamed/part_000
   ------------------------------------------------------------------ -/

/-- The review payload handed to addReview: Omit of Review without id, date
  (src/unnamed/part_000 line 102). -/
structure ReviewInput where
  userId : String
  userName : String
  rating : ℚ
  comment : String
deriving DecidableEq, Repr

/-- FirebaseService.addReview (src/unnamed/part_000 lines 102-120).
  doc is the fetched product document (none when it does not exist); newId
  and now stand for the generated random id and Date.now().  A missing
  product throws; otherwise the review is appended, the mean rating is
  recomputed as totalRating / updatedReviews.length, and the written
  document state is returned. -/
def addReview (newId : String) (now : Int) (doc : Option Product)
    (review : ReviewInput) : Except String Product :=
  match doc with
  | none => Except.error "Product not found"
  | some product =>
      let newReview : Review :=
        { userId := review.userId, userName := review.userName,
          rating := review.rating, comment := review.comment,
          id := newId, date := now }
      let updatedReviews := product.reviews ++ [newReview]
      let totalRating := updatedReviews.foldl (fun acc r => acc + r.rating) 0
      let newRating := totalRating / (updatedReviews.length : ℚ)
      Except.ok { product with reviews := updatedReviews, rating := newRating }

/-- FirebaseService.deleteReview (src/unnamed/part_000 lines 122-135).
  A missing product throws; otherwise the review with the given id is
  filtered out and the rating recomputed, 0 when no reviews remain. -/
def deleteReview (doc : Option Product) (reviewId : String) : Except String Product :=
  match doc with
  | none => Except.error "Product not found"
  | some product =>
      let updatedReviews := product.reviews.filter (fun r => r.id != reviewId)
      let totalRating := updatedReviews.foldl (fun acc r => acc + r.rating) 0
      let newRating : ℚ :=
        if 0 < updatedReviews.length then totalRating / (updatedReviews.length : ℚ) else 0
      Except.ok { product with reviews := updatedReviews, rating := newRating }

/-- FirebaseService.updateOrderStatus (src/unnamed/part_000 lines 185-202).
  The body is guarded by if (docSnap.exists()) with no else branch: a
  missing order completes normally with no write and no thrown error, hence
  Except.ok none.  On an existing order the new history entry is pushed and
  status, adminComment and statusHistory are written together. -/
def updateOrderStatus (now : Int) (doc : Option Order) (status : String)
    (comment : Option String) : Except String (Option Order) :=
  match doc with
  | none => Except.ok none
  | some order =>
      let history := order.statusHistory ++
        [{ status := status, comment := comment, timestamp := now }]
      Except.ok (some { order with
        status := status, adminComment := comment, statusHistory := history })

/-- FirebaseService.cancelOrder (src/unnamed/part_000 lines 204-223).
  Returns the boolean result together with the resulting document state.
  hoursDiff = (now - createdAt) / (1000*60*60); the order is cancelled only
  when hoursDiff is not above 24 and the status is Pending. -/
def cancelOrder (now : Int) (doc : Option Order) : Bool × Option Order :=
  match doc with
  | none => (false, none)
  | some order =>
      let timeDiff : Int := now - order.createdAt
      let hoursDiff : ℚ := (timeDiff : ℚ) / (1000 * 60 * 60)
      if hoursDiff > 24 ∨ order.status ≠ "Pending" then
        (false, some order)
      else
        let history := order.statusHistory ++
          [{ status := "Cancelled", comment := some "Cancelled by user", timestamp := now }]
        (true, some { order with status := "Cancelled", statusHistory := history })

/-- The formula of the spec for the aggregate rating of a product, written
  from its words: the arithmetic mean of reviews ratings, 0 when the list is
  empty.  To be compared with the rating the source writes back. -/
def ratingsMean (rs : List Review) : ℚ :=
  if rs.length = 0 then 0 else (rs.map Review.rating).sum / (rs.length : ℚ)

/- ------------------------------------------------------------------
   Concrete fixtures used to evaluate the operations
   ------------------------------------------------------------------ -/

/-- Build a concrete product document with the fields the claims exercise. -/
def mkProduct (pid : String) (price : ℚ) (offerPrice : Option ℚ)
    (deliveryFee : Option ℚ) : Product :=
  { id := pid, name := "P", description := "", shortDescription := none,
    price := price, offerPrice := offerPrice, deliveryFee := deliveryFee,
    category := "General", imageUrl := "", images := [], videoUrl := none,
    stock := 10, rating := 0, reviews := [] }

/-- A product whose stored offerPrice is the number 0 (falsy in JS). -/
def prodZero : Product := mkProduct "p0" 100 (some 0) none

/-- A plain product with no offer price and a 100-per-unit delivery fee. -/
def prod1 : Product := mkProduct "p1" 1000 none (some 100)

/-- A product with offer price 800 and a zero delivery fee. -/
def prodB : Product := mkProduct "pB" 1000 (some 800) (some 0)

/-- The checkout scenario cart from the spec: price 1000 qty 2 fee 100,
  and offerPrice 800 qty 1 fee 0. -/
def cartEx8 : List CartItem := [prod1.toCartItem 2, prodB.toCartItem 1]

/-- A stored user with the admin role. -/
def adminUser : User :=
  { id := "u9", email := "a@t.lk", name := "Admin", phone := "077",
    role := "admin", addresses := [], wishlist := [] }

/-- A concrete shipping address. -/
def addrEx : Address :=
  { id := "a1", label := "Home", name := "N", address := "1 St",
    city := "Colombo", district := "Colombo", phone := "071" }

/-- A concrete order that is already shipped (created at epoch 0). -/
def orderShipped : Order :=
  { id := "o1", userId := "u1", items := [], totalAmount := 0,
    deliveryFee := 0, status := "Shipped",
    statusHistory := [{ status := "Pending",
                        comment := some "Order placed successfully",
                        timestamp := 0 }],
    adminComment := none, createdAt := 0, shippingDetails := addrEx,
    paymentMethod := "COD", customerEmail := none, customerPhone := none }

/-- A product document with no reviews yet. -/
def prodR0 : Product := mkProduct "pr" 500 none none

/-- A review submission rated 4. -/
def rev4 : ReviewInput := { userId := "u1", userName := "A", rating := 4, comment := "good" }

/-- A review submission rated 2. -/
def rev2 : ReviewInput := { userId := "u2", userName := "B", rating := 2, comment := "meh" }

/-- prodR0 after the two reviews r1 (rating 4) and r2 (rating 2) have been
  added through addReview. -/
def p12 : Option Product :=
  (addReview "r2" 20 ((addReview "r1" 10 (some prodR0) rev4).toOption) rev2).toOption

/-- The document addReview writes when r1 (rating 4) is added to prodR0. -/
def p1c : Product :=
  { prodR0 with
    reviews := [{ userId := "u1", userName := "A", rating := 4,
                  comment := "good", id := "r1", date := 10 }],
    rating := 4 }

/- ------------------------------------------------------------------
   Helper lemmas
   ------------------------------------------------------------------ -/

/-- A JS reduce that adds f of each element is the sum of the mapped list. -/
theorem foldl_add_map {α : Type} (f : α → ℚ) (l : List α) :
    ∀ a : ℚ, l.foldl (fun acc x => acc + f x) a = a + (l.map f).sum := by
  induction l with
  | nil => intro a; simp
  | cons x xs ih =>
      intro a
      simp only [List.foldl_cons, List.map_cons, List.sum_cons, ih (a + f x)]
      ring

/-- jsOr with default 0 agrees with getD 0. -/
theorem jsOr_zero (o : Option ℚ) : jsOr o 0 = o.getD 0 := by
  cases o with
  | none => rfl
  | some x =>
      simp only [jsOr, Option.getD_some]
      split
      case isTrue h => exact h.symm
      case isFalse h => rfl

/-- cartTotal written as a sum over the mapped lines. -/
theorem cartTotal_eq_sum (cart : List CartItem) :
    cartTotal cart
      = (cart.map (fun item => jsOr item.offerPrice item.price * (item.quantity : ℚ))).sum := by
  unfold cartTotal
  exact (foldl_add_map _ cart 0).trans (zero_add _)

/-- totalDeliveryFee written as a sum over the mapped lines. -/
theorem totalDeliveryFee_eq_sum (cart : List CartItem) :
    totalDeliveryFee cart
      = (cart.map (fun item => jsOr item.deliveryFee 0 * (item.quantity : ℚ))).sum := by
  unfold totalDeliveryFee
  exact (foldl_add_map _ cart 0).trans (zero_add _)

/-- The reduce used to total review ratings is the sum of the ratings. -/
theorem reviews_foldl (rs : List Review) :
    rs.foldl (fun acc r => acc + r.rating) 0 = (rs.map Review.rating).sum :=
  (foldl_add_map _ rs 0).trans (zero_add _)

/-- Mapping the quantity bump over lines whose id never matches is the
  identity. -/
theorem map_if_id (p : Product) (l : List CartItem) (h : ∀ i ∈ l, i.id ≠ p.id) :
    l.map (fun item =>
        if item.id = p.id then { item with quantity := item.quantity + 1 } else item) = l := by
  induction l with
  | nil => rfl
  | cons x xs ih =>
      simp only [List.map_cons]
      rw [if_neg (h x (List.mem_cons_self x xs)),
        ih (fun i hi => h i (List.mem_cons_of_mem x hi))]

/-- addToCartUpdate keeps every line quantity at least 1. -/
theorem addToCartUpdate_quantity (p : Product) (cart : List CartItem)
    (hc : ∀ i ∈ cart, 1 ≤ i.quantity) : ∀ i ∈ addToCartUpdate p cart, 1 ≤ i.quantity := by
  intro i hi
  unfold addToCartUpdate at hi
  split at hi
  · rw [List.mem_map] at hi
    obtain ⟨j, hj, rfl⟩ := hi
    by_cases hid : j.id = p.id
    · rw [if_pos hid]
      have := hc j hj
      show 1 ≤ j.quantity + 1
      omega
    · rw [if_neg hid]
      exact hc j hj
  · rcases List.mem_append.mp hi with hmem | hmem
    · exact hc i hmem
    · rw [List.mem_singleton] at hmem
      subst hmem
      exact le_refl 1

/-- Every single cart action keeps every line quantity at least 1. -/
theorem applyOp_quantity (cart : List CartItem) (hc : ∀ i ∈ cart, 1 ≤ i.quantity)
    (op : CartOp) : ∀ i ∈ applyOp cart op, 1 ≤ i.quantity := by
  cases op with
  | add u p =>
      simp only [applyOp]
      cases u with
      | none => exact addToCartUpdate_quantity p cart hc
      | some x =>
          by_cases hr : x.role = "admin"
          · simpa [addToCart, hr] using hc
          · simpa [addToCart, hr] using addToCartUpdate_quantity p cart hc
  | remove pid =>
      simp only [applyOp, removeFromCart]
      intro i hi
      exact hc i (List.mem_filter.mp hi).1
  | update pid qty =>
      simp only [applyOp, updateQuantity]
      by_cases hq : qty < 1
      · rw [if_pos hq]
        intro i hi
        exact hc i (List.mem_filter.mp hi).1
      · rw [if_neg hq]
        intro i hi
        rw [List.mem_map] at hi
        obtain ⟨j, hj, rfl⟩ := hi
        by_cases hid : j.id = pid
        · rw [if_pos hid]
          show 1 ≤ qty
          omega
        · rw [if_neg hid]
          exact hc j hj
  | clear =>
      simp only [applyOp, clearCart]
      intro i hi
      exact absurd hi (List.not_mem_nil i)

/- ------------------------------------------------------------------
   Claim theorems
   ------------------------------------------------------------------ -/

/-- C2 (counterexample): updateOrderStatus invoked on a missing order
  document returns normally (Except.ok, no error raised) and performs no
  write, contradicting the claim that every such operation raises an
  explicit error rather than silently doing nothing. -/
theorem update_status_missing_is_silent :
    updateOrderStatus 1000 none "Shipped" none = Except.ok none := rfl

/-- C2 (amended): addReview and deleteReview raise an explicit
  Product-not-found error when the product document is missing, while
  updateOrderStatus on a missing order silently does nothing: it neither
  raises an error nor writes anything. -/
theorem notfound_error_behaviour :
    ∀ (nid : String) (now : Int) (r : ReviewInput) (rid : String) (s : String)
      (c : Option String),
      addReview nid now none r = Except.error "Product not found" ∧
      deleteReview none rid = Except.error "Product not found" ∧
      updateOrderStatus now none s c = Except.ok none := by
  intro nid now r rid s c
  exact ⟨rfl, rfl, rfl⟩

/-- C4: on an existing order, updateOrderStatus appends exactly one entry to
  statusHistory, whose status is the status argument; the prior entries are
  kept unchanged in front and the length grows by exactly 1. -/
theorem update_status_append_only :
    ∀ (now : Int) (o : Order) (s : String) (c : Option String),
      ∃ o' entry, updateOrderStatus now (some o) s c = Except.ok (some o') ∧
        o'.statusHistory = o.statusHistory ++ [entry] ∧
        entry.status = s ∧
        o'.statusHistory.length = o.statusHistory.length + 1 := by
  intro now o s c
  refine ⟨_, { status := s, comment := c, timestamp := now }, rfl, rfl, rfl, ?_⟩
  simp

/-- C10: a successful updateOrderStatus on an existing order writes exactly
  status, adminComment and statusHistory: status becomes the argument,
  adminComment is overwritten with the comment argument (cleared when none
  is passed), statusHistory gets the one new entry, and every other order
  field is unchanged. -/
theorem update_status_frame :
    ∀ (now : Int) (o : Order) (s : String) (c : Option String),
      ∃ o', updateOrderStatus now (some o) s c = Except.ok (some o') ∧
        o'.status = s ∧ o'.adminComment = c ∧
        o'.statusHistory
          = o.statusHistory ++ [{ status := s, comment := c, timestamp := now }] ∧
        o'.id = o.id ∧ o'.userId = o.userId ∧ o'.items = o.items ∧
        o'.totalAmount = o.totalAmount ∧ o'.deliveryFee = o.deliveryFee ∧
        o'.createdAt = o.createdAt ∧ o'.shippingDetails = o.shippingDetails ∧
        o'.paymentMethod = o.paymentMethod ∧ o'.customerEmail = o.customerEmail ∧
        o'.customerPhone = o.customerPhone := by
  intro now o s c
  exact ⟨_, rfl, rfl, rfl, rfl, rfl, rfl, rfl, rfl, rfl, rfl, rfl, rfl, rfl, rfl⟩

/-- C9: when the stored current user has the admin role, addToCart leaves
  the cart completely unchanged. -/
theorem addToCart_admin_noop (u : User) (p : Product) (cart : List CartItem)
    (h : u.role = "admin") : addToCart (some u) p cart = cart := by
  simp [addToCart, h]

/-- C9 witness: the concrete admin user cannot change a concrete cart. -/
theorem addToCart_admin_noop_witness :
    addToCart (some adminUser) prod1 [Product.toCartItem prodZero 3]
      = [Product.toCartItem prodZero 3] :=
  addToCart_admin_noop adminUser prod1 [Product.toCartItem prodZero 3] rfl

/-- C8: the checkout delivery fee is the sum over cart lines of the per-unit
  delivery fee of the line (0 when absent) times quantity, and the grand total
  is the cart subtotal plus that fee; on the scenario cart of the spec the
  subtotal is 2800, the delivery fee 200, and the grand total 3000. -/
theorem checkout_totals :
    (∀ cart : List CartItem,
        totalDeliveryFee cart
            = (cart.map (fun item => item.deliveryFee.getD 0 * (item.quantity : ℚ))).sum ∧
          grandTotal cart = cartTotal cart + totalDeliveryFee cart) ∧
      (cartTotal cartEx8 = 2800 ∧ totalDeliveryFee cartEx8 = 200 ∧
        grandTotal cartEx8 = 3000) := by
  constructor
  · intro cart
    refine ⟨(totalDeliveryFee_eq_sum cart).trans ?_, rfl⟩
    simp [jsOr_zero]
  · refine ⟨?_, ?_, ?_⟩ <;>
      norm_num [cartTotal, totalDeliveryFee, grandTotal, cartEx8, prod1, prodB,
        mkProduct, Product.toCartItem, jsOr]

/-- C1: on an existing order, cancelOrder succeeds exactly when the status
  is Pending and the elapsed hours since createdAt are at most 24, and
  whenever it fails it leaves the order document unchanged. -/
theorem cancelOrder_pending_window (now : Int) (o : Order) :
    ((cancelOrder now (some o)).1 = true ↔
      o.status = "Pending" ∧ ((now - o.createdAt : Int) : ℚ) / (1000 * 60 * 60) ≤ 24) ∧
    ((cancelOrder now (some o)).1 = false → (cancelOrder now (some o)).2 = some o) := by
  simp only [cancelOrder]
  split_ifs with h
  · constructor
    · simp only [Bool.false_eq_true, false_iff]
      rintro ⟨hp, hle⟩
      rcases h with h | h
      · exact absurd hle (not_le.mpr h)
      · exact absurd hp h
    · intro _
      rfl
  · push_neg at h
    obtain ⟨h1, h2⟩ := h
    constructor
    · simp only [true_iff]
      exact ⟨h2, h1⟩
    · intro hf
      simp at hf

/-- C1 witness: a shipped order cannot be cancelled and is left unchanged. -/
theorem cancelOrder_pending_window_witness :
    (cancelOrder 1000 (some orderShipped)).2 = some orderShipped :=
  (cancelOrder_pending_window 1000 orderShipped).2 (by simp [cancelOrder, orderShipped])

/-- C3 (counterexample): a product whose stored offerPrice is the number 0
  is falsy in JS, so cartTotal charges the full price for it, while the
  claimed formula (offerPrice if present, otherwise price) yields 0. -/
theorem cartTotal_nullish_counterexample :
    cartTotal (runOps [CartOp.add none prodZero])
      ≠ specCartTotal (runOps [CartOp.add none prodZero]) := by
  norm_num [runOps, applyOp, addToCart, addToCartUpdate, cartTotal, specCartTotal,
    prodZero, mkProduct, jsOr, Product.toCartItem]

/-- C3 (amended): for every sequence of cart operations starting from the
  empty cart, the cart total equals the sum over the remaining lines of
  (offerPrice if present and nonzero, otherwise price) times quantity. -/
theorem cartTotal_truthy (ops : List CartOp) :
    cartTotal (runOps ops)
      = ((runOps ops).map
          (fun item => jsOr item.offerPrice item.price * (item.quantity : ℚ))).sum :=
  cartTotal_eq_sum (runOps ops)

/-- C5 (counterexample): when the stored user is an admin, adding a product
  absent from the cart does not append a line at all, so the claim that one
  new line with quantity 1 is appended fails. -/
theorem addToCart_admin_blocks_append :
    (addToCart (some adminUser) prod1 []).length ≠ 1 := by
  simp [addToCart, adminUser]

/-- C5 (amended): unless the stored user is an admin (in which case the cart
  is left unchanged), adding a product whose id is absent from the cart
  appends exactly one new line with quantity 1, and adding a product whose
  id sits on exactly one line bumps the quantity of that line by exactly 1,
  leaving every other line unchanged and creating no duplicate line. -/
theorem addToCart_merge (u : Option User) (p : Product) (cart : List CartItem)
    (hu : ∀ x, u = some x → x.role ≠ "admin") :
    ((∀ i ∈ cart, i.id ≠ p.id) → addToCart u p cart = cart ++ [p.toCartItem 1]) ∧
    (∀ pre line post, cart = pre ++ line :: post → line.id = p.id →
      (∀ i ∈ pre, i.id ≠ p.id) → (∀ i ∈ post, i.id ≠ p.id) →
      addToCart u p cart
        = pre ++ { line with quantity := line.quantity + 1 } :: post) := by
  have hcart : addToCart u p cart = addToCartUpdate p cart := by
    cases u with
    | none => rfl
    | some x => simp [addToCart, hu x rfl]
  rw [hcart]
  constructor
  · intro hnot
    have hnone : cart.find? (fun item => item.id == p.id) = none := by
      rw [List.find?_eq_none]
      intro i hi
      simpa using hnot i hi
    unfold addToCartUpdate
    rw [hnone]
    rfl
  · intro pre line post hcq hline hpre hpost
    subst hcq
    have hsome : (((pre ++ line :: post).find?
        (fun item => item.id == p.id)).isSome) = true := by
      rw [List.find?_isSome]
      exact ⟨line, by simp, by simp [hline]⟩
    unfold addToCartUpdate
    rw [if_pos hsome, List.map_append, List.map_cons, map_if_id p pre hpre,
      map_if_id p post hpost, if_pos hline]

/-- C5 witness: with no stored user, adding prod1 to a cart holding one
  prod1 line of quantity 1 bumps that line to quantity 2. -/
theorem addToCart_merge_witness :
    addToCart none prod1 [prod1.toCartItem 1] = [prod1.toCartItem 2] := by
  have h := (addToCart_merge none prod1 [prod1.toCartItem 1]
      (fun x hx => Option.noConfusion hx)).2 [] (prod1.toCartItem 1) [] rfl rfl
      (fun i hi => absurd hi (List.not_mem_nil i))
      (fun i hi => absurd hi (List.not_mem_nil i))
  simpa [Product.toCartItem] using h

/-- C6: every cart line reachable from the empty cart by add, remove,
  update-quantity and clear operations has quantity at least 1, and an
  update-quantity call with a value of 0 or less is the same operation as
  removing the line. -/
theorem cart_quantity_invariant :
    (∀ ops : List CartOp, ∀ i ∈ runOps ops, 1 ≤ i.quantity) ∧
    (∀ (pid : String) (qty : Int) (cart : List CartItem), qty ≤ 0 →
      updateQuantity pid qty cart = removeFromCart pid cart) := by
  constructor
  · have key : ∀ (ops : List CartOp) (cart : List CartItem),
        (∀ i ∈ cart, 1 ≤ i.quantity) → ∀ i ∈ ops.foldl applyOp cart, 1 ≤ i.quantity := by
      intro ops
      induction ops with
      | nil => intro cart hc; simpa using hc
      | cons op rest ih =>
          intro cart hc
          simp only [List.foldl_cons]
          exact ih (applyOp cart op) (applyOp_quantity cart hc op)
    intro ops
    exact key ops [] (fun i hi => absurd hi (List.not_mem_nil i))
  · intro pid qty cart hq
    unfold updateQuantity
    rw [if_pos (by omega)]

/-- C6 witness: the single line produced by one add has quantity 1, and a
  quantity update to 0 on it removes the line. -/
theorem cart_quantity_invariant_witness :
    1 ≤ (Product.toCartItem prod1 1).quantity ∧
    updateQuantity "p1" 0 [prod1.toCartItem 1]
      = removeFromCart "p1" [prod1.toCartItem 1] :=
  ⟨cart_quantity_invariant.1 [CartOp.add none prod1] (prod1.toCartItem 1)
      (by simp [runOps, applyOp, addToCart, addToCartUpdate]),
    cart_quantity_invariant.2 "p1" 0 [prod1.toCartItem 1] (by omega)⟩

/-- The written rating expression of addReview is the mean when the list is
  nonempty. -/
theorem mean_formula (rs : List Review) (h : rs.length ≠ 0) :
    rs.foldl (fun acc r => acc + r.rating) 0 / (rs.length : ℚ) = ratingsMean rs := by
  rw [reviews_foldl]
  unfold ratingsMean
  rw [if_neg h]

/-- The written rating expression of deleteReview is the mean, 0 included. -/
theorem mean_formula_ite (rs : List Review) :
    (if 0 < rs.length
      then rs.foldl (fun acc r => acc + r.rating) 0 / (rs.length : ℚ) else 0)
      = ratingsMean rs := by
  rcases Nat.eq_zero_or_pos rs.length with hz | hz
  · rw [if_neg (by omega)]
    unfold ratingsMean
    rw [if_pos hz]
  · rw [if_pos hz, mean_formula rs (by omega)]

/-- C7: the rating addReview and deleteReview write back is the arithmetic
  mean of the written reviews ratings (0 when none remain); on the example
  of the spec, ratings 4 and 2 give mean 3, deleting the 4 gives 2, and
  deleting every review gives 0. -/
theorem review_rating_mean :
    (∀ (nid : String) (now : Int) (p : Product) (r : ReviewInput) (q : Product),
        addReview nid now (some p) r = Except.ok q → q.rating = ratingsMean q.reviews) ∧
    (∀ (p : Product) (rid : String) (q : Product),
        deleteReview (some p) rid = Except.ok q → q.rating = ratingsMean q.reviews) ∧
    (p12.map Product.rating = some 3 ∧
      (deleteReview p12 "r1").toOption.map Product.rating = some 2 ∧
      (deleteReview ((deleteReview p12 "r1").toOption) "r2").toOption.map Product.rating
        = some 0) := by
  refine ⟨?_, ?_, ?_⟩
  · intro nid now p r q h
    simp only [addReview] at h
    injection h with h
    subst h
    exact mean_formula _ (by simp)
  · intro p rid q h
    simp only [deleteReview] at h
    injection h with h
    subst h
    exact mean_formula_ite _
  · refine ⟨?_, ?_, ?_⟩ <;>
      norm_num [p12, addReview, deleteReview, prodR0, mkProduct, rev4, rev2,
        Except.toOption, List.filter_cons, List.filter_nil, bne_iff_ne,
        show ("r2" : String) ≠ "r1" from by decide]

/-- C7 witness: the document written when the rating-4 review is added to
  the fresh product carries the mean of its reviews ratings. -/
theorem review_rating_mean_witness : p1c.rating = ratingsMean p1c.reviews :=
  review_rating_mean.1 "r1" 10 prodR0 rev4 p1c
    (by norm_num [addReview, prodR0, mkProduct, rev4, p1c])

end TechMart
